import Mathlib

/-!
Verification of the spatial-sampling core of GProcessing2025.

The development shallowly embeds the point-generation core of the
repository: `ssp.utils.coordinates`, `ssp.sampling.base`,
`ssp.sampling.grid`, `ssp.sampling.road_network`, and the duplicated
`svipro.sampling.grid`.  Real numbers of the Python code are modelled by
rationals; the trigonometric helper `math.cos(math.radians -)` is an
explicit function parameter `cosdeg` of every definition that needs it,
so every definition stays executable and claims hold for the actual
cosine in particular.
-/

namespace GProc

/-- Python `int(q)`: truncation toward zero, on rationals. -/
def pyTrunc (q : ℚ) : ℤ := if 0 ≤ q then ⌊q⌋ else -⌊-q⌋

/-- Python `round(q, n)` with round-half-to-even (banker) tie breaking,
exact on rationals. -/
def pyRound (n : ℕ) (q : ℚ) : ℚ :=
  let s : ℚ := q * (10 ^ n)
  let f : ℤ := ⌊s⌋
  let r : ℚ := s - f
  let k : ℤ :=
    if r < 1/2 then f
    else if (1:ℚ)/2 < r then f + 1
    else if f % 2 = 0 then f else f + 1
  (k : ℚ) / 10 ^ n

/-- Zero-padded decimal rendering of a natural number, modelling the
Python format specifier `{k:04d}` / `{k:05d}`. -/
def padNum (w : ℕ) (n : ℕ) : String :=
  let s := toString n
  String.mk (List.replicate (w - s.length) (Char.ofNat 48)) ++ s

/-- A shapely 2-D point. -/
structure Pt where
  x : ℚ
  y : ℚ
deriving DecidableEq, Repr

/-- A shapely `Polygon` as consumed by the sampling code: its bounding
box, the two point predicates the code reads (`contains`, which shapely
defines as strict interior membership, and lying exactly on the boundary
curve), and the scalar attributes `is_valid`, `is_empty`, `area`. -/
structure Polygon where
  minx : ℚ
  miny : ℚ
  maxx : ℚ
  maxy : ℚ
  contains : Pt → Bool
  onEdge : Pt → Bool
  is_valid : Bool
  is_empty : Bool
  area : ℚ

/-- Shapely semantics of `contains`: the interior of a polygon is
disjoint from its boundary curve, so a point lying exactly on the edge
is never `contains`-accepted. -/
def shapelySound (B : Polygon) : Prop :=
  ∀ p : Pt, B.onEdge p = true → B.contains p = false

/-- An axis-aligned rectangle, shapely `box(x0, y0, x1, y1)`. -/
def rect (x0 y0 x1 y1 : ℚ) : Polygon where
  minx := x0
  miny := y0
  maxx := x1
  maxy := y1
  contains := fun p => decide (x0 < p.x ∧ p.x < x1 ∧ y0 < p.y ∧ p.y < y1)
  onEdge := fun p =>
    decide ((x0 ≤ p.x ∧ p.x ≤ x1 ∧ y0 ≤ p.y ∧ p.y ≤ y1) ∧
      (p.x = x0 ∨ p.x = x1 ∨ p.y = y0 ∨ p.y = y1))
  is_valid := true
  is_empty := false
  area := (x1 - x0) * (y1 - y0)

theorem rect_shapelySound (x0 y0 x1 y1 : ℚ) : shapelySound (rect x0 y0 x1 y1) := by
  intro p hp
  simp only [rect, decide_eq_true_eq, decide_eq_false_iff_not] at hp ⊢
  rintro ⟨hx0, hx1, hy0, hy1⟩
  rcases hp with ⟨-, h | h | h | h⟩ <;> linarith

/-- The value passed as the `boundary` argument of `generate`: either an
actual shapely `Polygon`, or a value of some other Python type (whose
type name is recorded). -/
inductive Geometry where
  | poly (p : Polygon)
  | nonPolygon (typeName : String)

/-- Exceptions raised by the `ssp` sampling core.  `typeErr` models
Python `TypeError`, `boundaryNotValid` / `boundaryEmpty` /
`boundaryZeroArea` model the three `BoundaryError` raises of
`_validate_boundary`, `valueErr` models `ValueError`, `samplingErr`
models `SamplingError`. -/
inductive Err where
  | typeErr (msg : String)
  | boundaryNotValid
  | boundaryEmpty
  | boundaryZeroArea
  | valueErr (msg : String)
  | samplingErr (msg : String)
deriving DecidableEq, Repr

/-- `True` exactly on `Except.ok` results. -/
def isOkE {α : Type} (e : Except Err α) : Bool :=
  match e with
  | .ok _ => true
  | .error _ => false

/-- `SamplingStrategy._validate_boundary` (src/src/ssp/sampling/base.py,
lines 230-263): type check, then validity, emptiness and zero-area
checks, in that order, each with its own distinct error. -/
def validate_boundary (g : Geometry) : Except Err Polygon :=
  match g with
  | .nonPolygon t =>
      .error (.typeErr ("boundary must be shapely Polygon, got " ++ t))
  | .poly b =>
      if b.is_valid = false then .error .boundaryNotValid
      else if b.is_empty = true then .error .boundaryEmpty
      else if b.area = 0 then .error .boundaryZeroArea
      else .ok b

/-- `SamplingConfig` (src/src/ssp/sampling/base.py).  The free-form
`metadata` map is not read by any of the sampling algorithms and is
omitted. -/
structure SamplingConfig where
  spacing : ℚ
  crs : String
  seed : ℤ
  boundary : Option Polygon

/-- `meters_to_degrees` (src/src/ssp/utils/coordinates.py, lines 12-76).
`cosdeg` stands for Python `math.cos(math.radians -)`. -/
def meters_to_degrees (cosdeg : ℚ → ℚ) (meters : ℚ) (latitude : Option ℚ) : ℚ :=
  if meters = 0 then 0
  else
    let lat := latitude.getD 45
    let meters_per_degree_lat : ℚ := 111132
    let meters_per_degree_lon : ℚ := 111320 * cosdeg lat
    meters / ((meters_per_degree_lat + meters_per_degree_lon) / 2)

/-- `degrees_to_meters` (src/src/ssp/utils/coordinates.py, lines 79-119). -/
def degrees_to_meters (cosdeg : ℚ → ℚ) (degrees : ℚ) (latitude : Option ℚ) : ℚ :=
  if degrees = 0 then 0
  else
    let lat := latitude.getD 45
    let meters_per_degree_lat : ℚ := 111132
    let meters_per_degree_lon : ℚ := 111320 * cosdeg lat
    degrees * ((meters_per_degree_lat + meters_per_degree_lon) / 2)

/-- `estimate_center_latitude` (src/src/ssp/utils/coordinates.py). -/
def estimate_center_latitude (b : Polygon) : ℚ := (b.miny + b.maxy) / 2

/-- Python `str.upper()`, characterwise ASCII case mapping (CRS
identifiers are ASCII). -/
def pyUpper (s : String) : String := String.mk (s.data.map Char.toUpper)

/-- `convert_spacing_for_crs` (src/src/ssp/utils/coordinates.py,
lines 143-182). -/
def convert_spacing_for_crs (cosdeg : ℚ → ℚ) (spacing_meters : ℚ)
    (crs : String) (boundary : Option Polygon) : ℚ :=
  if spacing_meters = 0 then 0
  else if pyUpper crs = "EPSG:4326" then
    meters_to_degrees cosdeg spacing_meters (boundary.map estimate_center_latitude)
  else spacing_meters

/-- `np.arange(start, stop, step)` for a positive step, exact over ℚ:
the values `start + k * step` for `0 ≤ k < ⌈(stop - start) / step⌉`. -/
def npArange (start stop step : ℚ) : List ℚ :=
  (List.range (⌈(stop - start) / step⌉.toNat)).map (fun k => start + (k : ℚ) * step)

/-- One row of the grid-sampling result GeoDataFrame. -/
structure GridPoint where
  geometry : Pt
  sample_id : String
  strategy : String
  timestamp : String
  grid_x : ℕ
  grid_y : ℕ
  spacing_m : ℚ
deriving DecidableEq, Repr

/-- A `GridPoint` with the timestamp field erased. -/
structure GridPointKey where
  geometry : Pt
  sample_id : String
  strategy : String
  grid_x : ℕ
  grid_y : ℕ
  spacing_m : ℚ
deriving DecidableEq, Repr

/-- Forget the timestamp of a grid-sample row. -/
def GridPoint.stripTs (p : GridPoint) : GridPointKey :=
  { geometry := p.geometry, sample_id := p.sample_id, strategy := p.strategy
  , grid_x := p.grid_x, grid_y := p.grid_y, spacing_m := p.spacing_m }

/-- The double loop of `GridSampling.generate` (both packages): the
candidate lattice `x_coords × y_coords` built by `np.arange` from the
boundary bounds with the effective spacing `actual`, filtered by strict
`boundary.contains`; `spacing_m` echoes the configured spacing in
meters. -/
def gridPointsCore (ts : String) (spacing_m : ℚ) (b : Polygon) (actual : ℚ) :
    List GridPoint :=
  let xs := npArange b.minx (b.maxx + actual) actual
  let ys := npArange b.miny (b.maxy + actual) actual
  xs.enum.flatMap (fun ix =>
    ys.enum.filterMap (fun jy =>
      let p : Pt := ⟨ix.2, jy.2⟩
      if b.contains p then
        some { geometry := p
             , sample_id := "grid_sampling_" ++ padNum 4 ix.1 ++ "_" ++ padNum 4 jy.1
             , strategy := "grid_sampling"
             , timestamp := ts
             , grid_x := ix.1
             , grid_y := jy.1
             , spacing_m := spacing_m }
      else none))

/-- The per-strategy mutable state read and written by `generate` and
`calculate_coverage_metrics`: the config (whose `boundary` field
`generate` overwrites) and the `_sample_points` slot. -/
structure GridState where
  config : SamplingConfig
  samplePoints : Option (List GridPoint)

/-- `GridSampling.generate` of the `ssp` package
(src/src/ssp/sampling/grid.py, lines 76-180): validate the boundary,
record it on the config, convert the spacing for the CRS, build the
candidate lattice from the bounds and keep the strictly contained
points.  `ts` is the `datetime.now().isoformat()` reading;
`np.random.seed(seed)` has no effect on the result and is dropped. -/
def sspGridGenerate (cosdeg : ℚ → ℚ) (st : GridState) (ts : String)
    (g : Geometry) : Except Err (GridState × List GridPoint) :=
  match validate_boundary g with
  | .error e => .error e
  | .ok b =>
    let cfg := { st.config with boundary := some b }
    let actual := convert_spacing_for_crs cosdeg cfg.spacing cfg.crs (some b)
    let pts := gridPointsCore ts cfg.spacing b actual
    .ok ({ config := cfg, samplePoints := some pts }, pts)

/-- `GridSampling.generate` of the duplicated `svipro` package
(src/src/svipro/sampling/grid.py, lines 74-169): identical to the `ssp`
version except that the raw `config.spacing` is used directly as the
grid step, with no CRS conversion, and validation failures raise
`ValueError` instead of `BoundaryError`. -/
def sviproGridGenerate (st : GridState) (ts : String) (g : Geometry) :
    Except Err (GridState × List GridPoint) :=
  match g with
  | .nonPolygon t =>
      .error (.typeErr ("boundary must be shapely Polygon, got " ++ t))
  | .poly b =>
      if b.is_valid = false then .error (.valueErr "boundary is not a valid polygon")
      else if b.is_empty = true then .error (.valueErr "boundary cannot be empty")
      else if b.area = 0 then .error (.valueErr "boundary must have non-zero area")
      else
        let cfg := { st.config with boundary := some b }
        let pts := gridPointsCore ts cfg.spacing b cfg.spacing
        .ok ({ config := cfg, samplePoints := some pts }, pts)

/-- The dictionary returned by `calculate_coverage_metrics`. -/
structure CoverageMetrics where
  n_points : ℕ
  area_km2 : ℚ
  density_pts_per_km2 : ℚ
  bounds : Pt × Pt
  crs : String
deriving DecidableEq, Repr

/-- The `area_m2` computed by the empty-result branch of
`calculate_coverage_metrics` from the recorded boundary
(src/src/ssp/sampling/base.py, lines 336-356). -/
def emptyAreaM2 (cosdeg : ℚ → ℚ) (crs : String) (b : Polygon) : ℚ :=
  if crs = "EPSG:4326" then
    let width_deg := b.maxx - b.minx
    let height_deg := b.maxy - b.miny
    let center_lat := (b.miny + b.maxy) / 2
    degrees_to_meters cosdeg width_deg (some center_lat) *
      degrees_to_meters cosdeg height_deg none
  else b.area

/-- The `area_km2` of the empty-result branch: boundary-derived when a
boundary is recorded, `0` otherwise. -/
def emptyBranchAreaKm2 (cosdeg : ℚ → ℚ) (cfg : SamplingConfig) : ℚ :=
  match cfg.boundary with
  | none => 0
  | some b => emptyAreaM2 cosdeg cfg.crs b / 1000000

/-- `gdf.total_bounds` of a non-empty point list: componentwise min and
max corners. -/
def totalBounds (p0 : Pt) (rest : List Pt) : Pt × Pt :=
  rest.foldl
    (fun bb p =>
      (⟨min bb.1.x p.x, min bb.1.y p.y⟩, ⟨max bb.2.x p.x, max bb.2.y p.y⟩))
    (p0, p0)

/-- `SamplingStrategy.calculate_coverage_metrics`
(src/src/ssp/sampling/base.py, lines 303-454).  Rationals have no
NaN/Inf, so the invalid-bounds guard and the `try`/`except` fallback
chain around `box(*bounds)` are dead branches of the model and are not
reproduced. -/
def calculate_coverage_metrics (cosdeg : ℚ → ℚ) (st : GridState) :
    Except Err CoverageMetrics :=
  match st.samplePoints with
  | none => .error (.samplingErr "No sample points generated yet")
  | some pts =>
    match pts with
    | [] =>
        .ok { n_points := 0
            , area_km2 := pyRound 4 (emptyBranchAreaKm2 cosdeg st.config)
            , density_pts_per_km2 := 0
            , bounds := (⟨0, 0⟩, ⟨0, 0⟩)
            , crs := st.config.crs }
    | q :: qs =>
        let bb := totalBounds q.geometry (qs.map GridPoint.geometry)
        let area_m2 :=
          if st.config.crs = "EPSG:4326" then
            let center_lat := (bb.1.y + bb.2.y) / 2
            degrees_to_meters cosdeg (bb.2.x - bb.1.x) (some center_lat) *
              degrees_to_meters cosdeg (bb.2.y - bb.1.y) none
          else (bb.2.x - bb.1.x) * (bb.2.y - bb.1.y)
        let area_km2 := area_m2 / 1000000
        let n := pts.length
        let density := if 0 < area_km2 then (n : ℚ) / area_km2 else 0
        .ok { n_points := n
            , area_km2 := pyRound 4 area_km2
            , density_pts_per_km2 := pyRound 2 density
            , bounds := bb
            , crs := st.config.crs }

/-- The `highway` attribute of an OSM edge: a single tag or a list of
tags. -/
inductive HighwayAttr where
  | tag (s : String)
  | tags (ss : List String)
deriving DecidableEq, Repr

/-- Python `str()` of a highway attribute: the string itself for a
single tag, the list repr for a tag list. -/
def HighwayAttr.render : HighwayAttr → String
  | .tag s => s
  | .tags ss =>
      "[" ++ String.intercalate ", " (ss.map (fun s => "\x27" ++ s ++ "\x27")) ++ "]"

/-- One undirected road edge as read by `RoadNetworkSampling.generate`
after `ox.graph_to_gdfs`: its structural index (the edge-id fallback),
optional `osmid`, the value of the `length` column, the geometric length
`geometry.length`, the normalized interpolation function
`geometry.interpolate(-, normalized=True)` of its line geometry, and
its optional `highway` attribute. -/
structure Edge where
  idx : ℤ
  osmid : Option ℤ
  lengthAttr : ℚ
  geomLength : ℚ
  interp : ℚ → Pt
  highway : Option HighwayAttr

/-- The effective edge length: the `length` column when present in the
edge GeoDataFrame, the geometric length otherwise
(src/src/ssp/sampling/road_network.py, lines 308-311). -/
def Edge.effLength (hasLengthCol : Bool) (e : Edge) : ℚ :=
  if hasLengthCol then e.lengthAttr else e.geomLength

/-- A straight-segment edge from `a` to `b`; interpolation is linear.
`geomLength` is set to the `length` attribute, which is the value the
walk reads whenever the length column is present. -/
def segEdge (idx : ℤ) (a b : Pt) (len : ℚ) (hw : Option HighwayAttr) : Edge :=
  { idx := idx
  , osmid := none
  , lengthAttr := len
  , geomLength := len
  , interp := fun f => ⟨a.x + f * (b.x - a.x), a.y + f * (b.y - a.y)⟩
  , highway := hw }

/-- The road-type edge filter (src/src/ssp/sampling/road_network.py,
lines 283-292): `data.get('highway', '')`, list attributes kept when
any member is in the filter set, string attributes kept when the string
itself is. -/
def edgeMatches (road_types : List String) (e : Edge) : Bool :=
  match e.highway with
  | none => road_types.contains ""
  | some (.tag s) => road_types.contains s
  | some (.tags ss) => ss.any (fun h => road_types.contains h)

/-- Sum of effective lengths over the road-type-filtered edge list: the
`total_length` of `RoadNetworkSampling.generate`. -/
def totalFilteredLength (road_types : Option (List String)) (hasLengthCol : Bool)
    (edges : List Edge) : ℚ :=
  let filtered := match road_types with
    | none => edges
    | some rts => edges.filter (edgeMatches rts)
  (filtered.map (Edge.effLength hasLengthCol)).sum

/-- `n_points_target = max(1, int(total_length / spacing))`. -/
def roadTargetN (road_types : Option (List String)) (hasLengthCol : Bool)
    (edges : List Edge) (spacing : ℚ) : ℤ :=
  max 1 (pyTrunc (totalFilteredLength road_types hasLengthCol edges / spacing))

/-- One row of the road-network-sampling result GeoDataFrame. -/
structure RoadPoint where
  geometry : Pt
  sample_id : String
  strategy : String
  timestamp : String
  edge_id : ℤ
  distance_along_edge : ℚ
  spacing_m : ℚ
  highway : String
  network_type : String
deriving DecidableEq, Repr

/-- The interpolation fraction of candidate `i` on an edge with
`n_edge_points = n`: `i / (n - 1)` when `n > 1`, the midpoint `0.5`
when `n == 1`. -/
def edgeFraction (n i : ℕ) : ℚ :=
  if 1 < n then (i : ℚ) / ((n : ℚ) - 1) else 1/2

/-- The body of the inner `for i in range(n_edge_points)` loop of
`RoadNetworkSampling.generate` (src/src/ssp/sampling/road_network.py,
lines 350-383), acting on the running state `(points, points_generated)`.
Once the budget is reached the loop breaks; since the state can only
stay fixed afterwards, the break is modelled by leaving the state
unchanged on the remaining indices. -/
def edgeScanStep (B : Polygon) (spacing : ℚ) (ts netType : String)
    (target : ℤ) (eid : ℤ) (hw : String) (elen : ℚ) (n : ℕ)
    (interp : ℚ → Pt) (st : List RoadPoint × ℕ) (i : ℕ) :
    List RoadPoint × ℕ :=
  if (st.2 : ℤ) ≥ target then st
  else if B.contains (interp (edgeFraction n i)) then
    (st.1 ++
      [{ geometry := interp (edgeFraction n i)
       , sample_id := "road_network_sampling_" ++ padNum 5 st.2
       , strategy := "road_network_sampling"
       , timestamp := ts
       , edge_id := eid
       , distance_along_edge := edgeFraction n i * elen
       , spacing_m := spacing
       , highway := hw
       , network_type := netType }], st.2 + 1)
  else st

/-- The point placement on one edge: scan candidate indices
`0, ..., n-1`. -/
def edgeScan (B : Polygon) (spacing : ℚ) (ts netType : String)
    (target : ℤ) (eid : ℤ) (hw : String) (elen : ℚ) (n : ℕ)
    (interp : ℚ → Pt) (st : List RoadPoint × ℕ) : List RoadPoint × ℕ :=
  (List.range n).foldl (edgeScanStep B spacing ts netType target eid hw elen n interp) st

/-- The string stored in the `highway` column:
`row.get('highway', 'unknown')`, rendered through `str()` when it is
not a string. -/
def edgeHighwayStr (e : Edge) : String :=
  match e.highway with
  | none => "unknown"
  | some a => a.render

/-- The edge-id column value: `osmid` when present, the structural index
otherwise. -/
def edgeIdOf (e : Edge) : ℤ := e.osmid.getD e.idx

/-- `n_edge_points` for one edge: `max(1, int(edge_length / spacing))`,
with one extra candidate when the bonus flag is set
(src/src/ssp/sampling/road_network.py, lines 343-347). -/
def edgeCount (spacing : ℚ) (hasLengthCol : Bool) (bonus : Bool) (e : Edge) : ℕ :=
  (max 1 (pyTrunc (e.effLength hasLengthCol / spacing) + if bonus then 1 else 0)).toNat

/-- The outer edge walk of `RoadNetworkSampling.generate`
(src/src/ssp/sampling/road_network.py, lines 327-390): edges in
iteration order; an edge processed while `points_generated == 0` gets
the bonus candidate point, later edges do not; the walk stops once the
budget is reached. -/
def roadWalk (B : Polygon) (spacing : ℚ) (ts netType : String)
    (hasLengthCol : Bool) (target : ℤ) :
    List Edge → List RoadPoint × ℕ → List RoadPoint × ℕ
  | [], st => st
  | e :: rest, st =>
    if (st.2 : ℤ) ≥ target then st
    else
      roadWalk B spacing ts netType hasLengthCol target rest
        (edgeScan B spacing ts netType target (edgeIdOf e) (edgeHighwayStr e)
          (e.effLength hasLengthCol)
          (edgeCount spacing hasLengthCol (st.2 == 0) e) e.interp st)

/-- `RoadNetworkSampling.generate` (src/src/ssp/sampling/road_network.py,
lines 131-421), starting from the road graph obtained from the external
road-graph provider: `edges` is the undirected edge table in iteration
order and `hasLengthCol` records whether its `length` column is present.
The model covers the edge-count check, the road-type filter with its
distinct no-matching-edges error, the budget computation and the edge
walk; the OSM download itself is the external collaborator and its
failure (`RuntimeError`) is outside the model.  `roadFinish` is the
tail of `generate` after filtering: budget computation, edge walk, and
the distinct no-points-generated error. -/
def roadFinish (cfg : SamplingConfig) (netType : String)
    (road_types : Option (List String)) (ts : String)
    (edges : List Edge) (hasLengthCol : Bool) (b : Polygon)
    (filtered : List Edge) : Except Err (List RoadPoint) :=
  let target := roadTargetN road_types hasLengthCol edges cfg.spacing
  let res := roadWalk b cfg.spacing ts netType hasLengthCol target filtered ([], 0)
  if res.1.isEmpty then
    .error (.valueErr "No sample points could be generated within boundary")
  else
    .ok res.1

def roadGenerate (cfg : SamplingConfig) (netType : String)
    (road_types : Option (List String)) (ts : String) (g : Geometry)
    (edges : List Edge) (hasLengthCol : Bool) :
    Except Err (List RoadPoint) :=
  match validate_boundary g with
  | .error e => .error e
  | .ok b =>
    if edges.isEmpty then
      .error (.valueErr "No road network found within the boundary")
    else
      match road_types with
      | none => roadFinish cfg netType road_types ts edges hasLengthCol b edges
      | some rts =>
          let kept := edges.filter (edgeMatches rts)
          if kept.isEmpty then
            .error (.valueErr "No road edges matching road_types found within boundary")
          else roadFinish cfg netType road_types ts edges hasLengthCol b kept

/-- The edge walk as the specification text describes it, written over
an explicit edge position `idx` so that bonus rules phrased in terms of
"the very first edge visited" can be expressed: `bonusAt idx cnt`
decides whether the edge at position `idx`, reached with running total
`cnt`, receives the extra candidate point. -/
def specWalk (B : Polygon) (spacing : ℚ) (ts netType : String)
    (hasLengthCol : Bool) (target : ℤ) (bonusAt : ℕ → ℕ → Bool) :
    List Edge → ℕ → List RoadPoint × ℕ → List RoadPoint × ℕ
  | [], _, st => st
  | e :: rest, idx, st =>
    if (st.2 : ℤ) ≥ target then st
    else
      specWalk B spacing ts netType hasLengthCol target bonusAt rest (idx + 1)
        (edgeScan B spacing ts netType target (edgeIdOf e) (edgeHighwayStr e)
          (e.effLength hasLengthCol)
          (edgeCount spacing hasLengthCol (bonusAt idx st.2) e) e.interp st)

/-- One iteration record of the `optimize_spacing_for_target_n` binary
search: the spacing tried and the point count it generated. -/
structure OptStep where
  spacing : ℚ
  count : ℕ
deriving DecidableEq, Repr

/-- The best-so-far update of one binary-search iteration: keep the
newly generated point set only on strict improvement of
`abs(len(gdf) - target_n)` (src/src/ssp/sampling/grid.py,
lines 273-275). -/
def updateBest (target_n : ℤ) (pts : List GridPoint)
    (best : Option (List GridPoint × ℕ)) : Option (List GridPoint × ℕ) :=
  match best with
  | none => some (pts, ((pts.length : ℤ) - target_n).natAbs)
  | some pr =>
      if ((pts.length : ℤ) - target_n).natAbs < pr.2 then
        some (pts, ((pts.length : ℤ) - target_n).natAbs)
      else some pr

/-- The 20-iteration binary-search loop of
`GridSampling.optimize_spacing_for_target_n`
(src/src/ssp/sampling/grid.py, lines 260-285).  Each iteration generates
with the midpoint spacing (the boundary was already validated, so the
`generate` call reduces to the candidate-lattice core), keeps the
strictly best point set seen so far, logs the iteration, halves the
search interval, and exits early on an exact match.  Returns the final
config (whose `spacing` the loop overwrote), the best `(points, diff)`
pair, and the iteration trace. -/
def optLoop (cosdeg : ℚ → ℚ) (ts : String) (b : Polygon) (target_n : ℤ) :
    ℕ → ℚ → ℚ → SamplingConfig → Option (List GridPoint × ℕ) → List OptStep →
    SamplingConfig × Option (List GridPoint × ℕ) × List OptStep
  | 0, _, _, cfg, best, trace => (cfg, best, trace)
  | fuel + 1, low, high, cfg, best, trace =>
    let mid := (low + high) / 2
    let cfg2 : SamplingConfig := { cfg with spacing := mid, boundary := some b }
    let actual := convert_spacing_for_crs cosdeg mid cfg2.crs (some b)
    let pts := gridPointsCore ts mid b actual
    let best2 := updateBest target_n pts best
    let trace2 := trace ++ [⟨mid, pts.length⟩]
    if ((pts.length : ℤ) - target_n).natAbs = 0 then (cfg2, best2, trace2)
    else if (pts.length : ℤ) < target_n then
      optLoop cosdeg ts b target_n fuel low mid cfg2 best2 trace2
    else
      optLoop cosdeg ts b target_n fuel mid high cfg2 best2 trace2

/-- `max_possible_points` as estimated by `optimize_spacing_for_target_n`
(src/src/ssp/sampling/grid.py, lines 244-251): boundary extents divided
by the CRS-converted minimum spacing, per axis, plus one, multiplied. -/
def optMaxPossible (cosdeg : ℚ → ℚ) (crs : String) (b : Polygon)
    (min_spacing : ℚ) : ℤ :=
  let minActual := convert_spacing_for_crs cosdeg min_spacing crs (some b)
  let x_max_count := pyTrunc ((b.maxx - b.minx) / minActual) + 1
  let y_max_count := pyTrunc ((b.maxy - b.miny) / minActual) + 1
  x_max_count * y_max_count

/-- `GridSampling.optimize_spacing_for_target_n`
(src/src/ssp/sampling/grid.py, lines 182-291): fail-fast input checks,
boundary validation, achievability check, then the binary-search loop;
the best point set found is stored as `_sample_points` and returned
(`best_gdf` starts as `None`, hence the `Option`). -/
def optimize_spacing_for_target_n (cosdeg : ℚ → ℚ) (st : GridState)
    (ts : String) (g : Geometry) (target_n : ℤ)
    (min_spacing max_spacing : ℚ) :
    Except Err (GridState × Option (List GridPoint)) :=
  if target_n ≤ 0 then .error (.valueErr "target_n must be positive")
  else if min_spacing ≥ max_spacing then
    .error (.valueErr "min_spacing must be less than max_spacing")
  else
    match validate_boundary g with
    | .error e => .error e
    | .ok b =>
      if target_n > optMaxPossible cosdeg st.config.crs b min_spacing then
        .error (.valueErr "Target point count is too high for the boundary area")
      else
        let r := optLoop cosdeg ts b target_n 20 min_spacing max_spacing
          st.config none []
        .ok ({ config := r.1, samplePoints := (r.2.1).map Prod.fst },
          (r.2.1).map Prod.fst)

/-- Containment checker for a grid `generate` call: every returned point
is strictly contained in the boundary and none lies exactly on its
edge.  Vacuously true when `generate` raises. -/
def gridInsideOK (cosdeg : ℚ → ℚ) (st : GridState) (ts : String)
    (B : Polygon) : Bool :=
  match sspGridGenerate cosdeg st ts (.poly B) with
  | .error _ => true
  | .ok (_, pts) =>
      pts.all (fun p => B.contains p.geometry && !(B.onEdge p.geometry))

/-- Containment checker for a road-network `generate` call. -/
def roadInsideOK (cfg : SamplingConfig) (netType : String)
    (road_types : Option (List String)) (ts : String) (B : Polygon)
    (edges : List Edge) (hasLengthCol : Bool) : Bool :=
  match roadGenerate cfg netType road_types ts (.poly B) edges hasLengthCol with
  | .error _ => true
  | .ok pts =>
      pts.all (fun p => B.contains p.geometry && !(B.onEdge p.geometry))

/-- Budget checker for a road-network `generate` call: the returned
point count never exceeds `n_points_target`.  Vacuously true when
`generate` raises. -/
def roadBudgetOK (cfg : SamplingConfig) (netType : String)
    (road_types : Option (List String)) (ts : String) (g : Geometry)
    (edges : List Edge) (hasLengthCol : Bool) : Bool :=
  match roadGenerate cfg netType road_types ts g edges hasLengthCol with
  | .error _ => true
  | .ok pts =>
      (pts.length : ℤ) ≤ roadTargetN road_types hasLengthCol edges cfg.spacing

/-- Search-result checker for a successful
`optimize_spacing_for_target_n` call: the loop ran (non-empty trace of
at most 20 iterations), the returned point set is one generated by some
iteration and its count is closest to `target_n` among all iterations,
and the config spacing was overwritten with the last spacing tried. -/
def optSearchOK (cosdeg : ℚ → ℚ) (st : GridState) (ts : String)
    (g : Geometry) (target_n : ℤ) (min_spacing max_spacing : ℚ) : Bool :=
  match validate_boundary g with
  | .error _ => false
  | .ok b =>
    let r := optLoop cosdeg ts b target_n 20 min_spacing max_spacing st.config none []
    let t := r.2.2
    match optimize_spacing_for_target_n cosdeg st ts g target_n min_spacing max_spacing with
    | .ok (st2, some pts) =>
        !t.isEmpty &&
        decide (t.length ≤ 20) &&
        t.all (fun s =>
          ((pts.length : ℤ) - target_n).natAbs ≤ ((s.count : ℤ) - target_n).natAbs) &&
        t.any (fun s => s.count = pts.length) &&
        decide (st2.config.spacing = (t.getLastD ⟨0, 0⟩).spacing)
    | _ => false

/-- The `convert_spacing_for_crs` contract exactly as the specification
words it (§4.1): zero passes through; for the WGS84 code the input is
divided by the mean of the latitude-degree length 111132 and the
longitude-degree length `111320 * cos(center latitude)` at the
boundary's estimated center latitude (midpoint of the min/max Y bounds,
45 degrees with no boundary); any other CRS identifier passes the input
through unchanged. -/
def convertSpacingSpec (cosdeg : ℚ → ℚ) (s : ℚ) (crs : String)
    (boundary : Option Polygon) : ℚ :=
  if s = 0 then 0
  else if pyUpper crs = "EPSG:4326" then
    let center_lat : ℚ :=
      match boundary with
      | none => 45
      | some b => (b.miny + b.maxy) / 2
    s / ((111132 + 111320 * cosdeg center_lat) / 2)
  else s

/-- A self-intersecting (bowtie) quadrilateral: shapely reports
`is_valid = False` for it (and, for this figure, zero net area); the
point predicates of an invalid polygon are never consulted by the
code. -/
def bowtie : Polygon :=
  { minx := 0, miny := 0, maxx := 1, maxy := 1
  , contains := fun _ => false, onEdge := fun _ => false
  , is_valid := false, is_empty := false, area := 0 }

/-- `shapely.Polygon()`: empty, valid, zero area. -/
def emptyPolygon : Polygon :=
  { minx := 0, miny := 0, maxx := 0, maxy := 0
  , contains := fun _ => false, onEdge := fun _ => false
  , is_valid := true, is_empty := true, area := 0 }

/-- A degenerate zero-area polygon that is non-empty. -/
def zeroAreaPolygon : Polygon :=
  { minx := 0, miny := 0, maxx := 1, maxy := 0
  , contains := fun _ => false, onEdge := fun _ => false
  , is_valid := true, is_empty := false, area := 0 }

/-- A projected-CRS sampling configuration with 100 m spacing. -/
def cfgProj : SamplingConfig := ⟨100, "EPSG:3857", 42, none⟩

/-- A geographic-CRS (WGS84) sampling configuration with spacing 100. -/
def cfgWgs : SamplingConfig := ⟨100, "EPSG:4326", 42, none⟩

/-- Fresh strategy state for the projected configuration. -/
def stProj : GridState := ⟨cfgProj, none⟩

/-- Fresh strategy state for the WGS84 configuration. -/
def stWgs : GridState := ⟨cfgWgs, none⟩

/-- A 50 m primary-road segment lying inside `rect 0 0 1000 1000`. -/
def shortEdge : Edge := segEdge 0 ⟨100, 100⟩ ⟨150, 100⟩ 50 (some (.tag "primary"))

/-- A 100 m segment lying entirely outside `rect 0 0 1000 1000`. -/
def outsideEdge : Edge := segEdge 0 ⟨2000, 0⟩ ⟨2100, 0⟩ 100 (some (.tag "primary"))

/-- A 300 m segment lying inside `rect 0 0 1000 1000`. -/
def insideEdge : Edge := segEdge 1 ⟨100, 500⟩ ⟨400, 500⟩ 300 (some (.tag "primary"))

/-- The point count returned by grid `generate` in concrete scenario A:
boundary `[0,1000] × [0,1000]` in a projected CRS, spacing 100 m (the
cosine argument is never consulted for a projected CRS). -/
def scenarioACount : ℕ :=
  match sspGridGenerate (fun _ => 1) stProj "t" (.poly (rect 0 0 1000 1000)) with
  | .ok (_, pts) => pts.length
  | .error _ => 0

/-- The tiny boundary of the zero-point witness scenario: its only
candidate lattice points fall on or outside its edges. -/
def tinyRect : Polygon := rect (1/4) (1/4) (1/2) (1/2)

/-- The strategy state after grid `generate` on `tinyRect` with the
projected configuration: boundary recorded, zero points. -/
def stTinyAfter : GridState :=
  { config := { spacing := 100, crs := "EPSG:3857", seed := 42
              , boundary := some tinyRect }
  , samplePoints := some [] }

/-- The loop invariant of the `optimize_spacing_for_target_n` binary
search: the best pair holds the diff of its own point list and is
minimal over (and witnessed in) the trace; an absent best means an
empty trace; the config spacing is the spacing tried last. -/
def OptInv (target_n : ℤ) (cfg : SamplingConfig)
    (best : Option (List GridPoint × ℕ)) (trace : List OptStep) : Prop :=
  (∀ bp bd, best = some (bp, bd) →
     bd = ((bp.length : ℤ) - target_n).natAbs ∧
     (∀ s ∈ trace, bd ≤ ((s.count : ℤ) - target_n).natAbs) ∧
     (∃ s ∈ trace, s.count = bp.length)) ∧
  (best = none → trace = []) ∧
  (trace ≠ [] → cfg.spacing = (trace.getLastD ⟨0, 0⟩).spacing)

/-! ## Shared lemmas -/

theorem foldl_invariant {α β : Type} (P : β → Prop) (f : β → α → β)
    (hf : ∀ b a, P b → P (f b a)) :
    ∀ (l : List α) (b : β), P b → P (l.foldl f b) := by
  intro l
  induction l with
  | nil => exact fun b hb => hb
  | cons a l ih => exact fun b hb => ih _ (hf b a hb)

/-- C4: `convert_spacing_for_crs(s, crs, boundary)` equals the reference
definition built from the specification text, and in particular at an
equatorial boundary (center latitude 0, where the cosine is exactly 1)
it converts 100 meters to `100 / 111226` degrees. -/
theorem convert_spacing_matches_spec :
    (∀ (cosdeg : ℚ → ℚ) (s : ℚ) (crs : String) (bd : Option Polygon),
       convert_spacing_for_crs cosdeg s crs bd = convertSpacingSpec cosdeg s crs bd) ∧
    (∀ (cosdeg : ℚ → ℚ) (b : Polygon), cosdeg 0 = 1 →
       estimate_center_latitude b = 0 →
       convert_spacing_for_crs cosdeg 100 "EPSG:4326" (some b) = 100 / 111226) := by
  constructor
  · intro cosdeg s crs bd
    unfold convert_spacing_for_crs convertSpacingSpec meters_to_degrees
    rcases bd with _ | b <;>
      simp only [Option.map_none, Option.map_some, Option.getD_none, Option.getD_some,
        estimate_center_latitude] <;>
      split_ifs <;> simp_all [estimate_center_latitude]
  · intro cosdeg b h1 h2
    unfold convert_spacing_for_crs
    rw [if_neg (by norm_num : ¬(100 : ℚ) = 0),
      if_pos (show pyUpper "EPSG:4326" = "EPSG:4326" by decide)]
    unfold meters_to_degrees
    rw [if_neg (by norm_num : ¬(100 : ℚ) = 0)]
    rw [show (Option.map estimate_center_latitude (some b)).getD 45 =
        estimate_center_latitude b from rfl, h2]
    simp only [h1]
    norm_num

/-- Witness for C4 at a concrete equatorial rectangle. -/
theorem convert_spacing_matches_spec_witness :
    convert_spacing_for_crs (fun _ => 1) 100 "EPSG:4326"
      (some (rect 0 (-1) 1 1)) = 100 / 111226 :=
  convert_spacing_matches_spec.2 (fun _ => 1) (rect 0 (-1) 1 1) rfl (by norm_num [estimate_center_latitude, rect])

/-- The candidate lattice of the grid core does not depend on the
timestamp: erasing the timestamp column yields identical rows. -/
theorem gridPointsCore_stripTs (ts1 ts2 : String) (s a : ℚ) (b : Polygon) :
    (gridPointsCore ts1 s b a).map GridPoint.stripTs =
    (gridPointsCore ts2 s b a).map GridPoint.stripTs := by
  unfold gridPointsCore
  rw [List.map_flatMap, List.map_flatMap]
  congr 1
  funext ix
  rw [List.map_filterMap, List.map_filterMap]
  apply List.filterMap_congr
  intro jy _
  by_cases h : b.contains ⟨ix.2, jy.2⟩ <;> simp [h, GridPoint.stripTs]

/-- C3: for a fixed `(boundary, spacing, crs)`, two `ssp`
`GridSampling.generate` calls with arbitrary (possibly different) seeds,
timestamps and prior instance state return identical point sets up to
the timestamp field (identical geometries, grid indices and sample ids),
including agreement on whether the call raises. -/
theorem grid_generate_seed_determinism (cosdeg : ℚ → ℚ) (spacing : ℚ) (crs : String)
    (seed1 seed2 : ℤ) (bd1 bd2 : Option Polygon)
    (sp1 sp2 : Option (List GridPoint)) (ts1 ts2 : String) (g : Geometry) :
    (sspGridGenerate cosdeg ⟨⟨spacing, crs, seed1, bd1⟩, sp1⟩ ts1 g).toOption.map
        (fun r => r.2.map GridPoint.stripTs) =
    (sspGridGenerate cosdeg ⟨⟨spacing, crs, seed2, bd2⟩, sp2⟩ ts2 g).toOption.map
        (fun r => r.2.map GridPoint.stripTs) := by
  unfold sspGridGenerate
  cases hv : validate_boundary g <;>
    simp [Except.toOption, hv, bind, Except.bind, pure, Except.pure,
      gridPointsCore_stripTs ts1 ts2]

/-- Successful boundary validation of a polygon argument returns that
polygon. -/
theorem validate_boundary_poly_ok {B b : Polygon}
    (h : validate_boundary (.poly B) = .ok b) : b = B := by
  unfold validate_boundary at h
  dsimp only at h
  split_ifs at h <;> simp_all

/-- Every row emitted by the grid core passed the strict `contains`
filter. -/
theorem mem_gridPointsCore_contains {ts : String} {s a : ℚ} {b : Polygon}
    {p : GridPoint} (hp : p ∈ gridPointsCore ts s b a) :
    b.contains p.geometry = true := by
  unfold gridPointsCore at hp
  simp only [List.mem_flatMap, List.mem_filterMap] at hp
  obtain ⟨ix, -, jy, -, hj⟩ := hp
  by_cases h : b.contains ⟨ix.2, jy.2⟩
  · rw [if_pos h] at hj
    cases hj
    exact h
  · rw [if_neg h] at hj
    cases hj

/-- The inner candidate scan only appends points accepted by the strict
`contains` filter. -/
theorem edgeScan_contains (B : Polygon) (spacing : ℚ) (ts netType : String)
    (target : ℤ) (eid : ℤ) (hw : String) (elen : ℚ) (n : ℕ)
    (interp : ℚ → Pt) (st : List RoadPoint × ℕ)
    (hst : ∀ p ∈ st.1, B.contains p.geometry = true) :
    ∀ p ∈ (edgeScan B spacing ts netType target eid hw elen n interp st).1,
      B.contains p.geometry = true := by
  refine foldl_invariant (fun st => ∀ p ∈ st.1, B.contains p.geometry = true)
    (edgeScanStep B spacing ts netType target eid hw elen n interp) ?_ _ st hst
  intro b i hb
  unfold edgeScanStep
  split_ifs with h1 h2
  · exact hb
  · intro p hp
    rcases List.mem_append.1 hp with h | h
    · exact hb p h
    · rcases List.mem_singleton.1 h with rfl
      exact h2
  · exact hb

/-- The edge walk only appends points accepted by the strict `contains`
filter. -/
theorem roadWalk_contains (B : Polygon) (spacing : ℚ) (ts netType : String)
    (hasLengthCol : Bool) (target : ℤ) :
    ∀ (edges : List Edge) (st : List RoadPoint × ℕ),
      (∀ p ∈ st.1, B.contains p.geometry = true) →
      ∀ p ∈ (roadWalk B spacing ts netType hasLengthCol target edges st).1,
        B.contains p.geometry = true := by
  intro edges
  induction edges with
  | nil => intro st hst; exact hst
  | cons e rest ih =>
    intro st hst
    unfold roadWalk
    split_ifs with h1
    · exact hst
    · exact ih _ (edgeScan_contains B spacing ts netType target _ _ _ _ _ st hst)

/-- Inversion of a successful `ssp` grid `generate`: the boundary
validated, the points are the filtered candidate lattice, and the state
records boundary and points. -/
theorem sspGridGenerate_ok {cosdeg : ℚ → ℚ} {st : GridState} {ts : String}
    {g : Geometry} {st2 : GridState} {pts : List GridPoint}
    (h : sspGridGenerate cosdeg st ts g = .ok (st2, pts)) :
    ∃ B, validate_boundary g = .ok B ∧
      pts = gridPointsCore ts st.config.spacing B
        (convert_spacing_for_crs cosdeg st.config.spacing st.config.crs (some B)) ∧
      st2 = { config := { st.config with boundary := some B }
            , samplePoints := some pts } := by
  unfold sspGridGenerate at h
  cases hv : validate_boundary g with
  | error e => rw [hv] at h; cases h
  | ok B =>
    rw [hv] at h
    simp only [Except.ok.injEq, Prod.mk.injEq] at h
    obtain ⟨hst2, hpts⟩ := h
    subst hpts
    exact ⟨B, rfl, rfl, hst2.symm⟩

/-- Inversion of a successful `roadFinish`: the returned points are the
walk's output. -/
theorem roadFinish_ok {cfg : SamplingConfig} {netType : String}
    {road_types : Option (List String)} {ts : String} {edges : List Edge}
    {hasLengthCol : Bool} {b : Polygon} {filtered : List Edge}
    {pts : List RoadPoint}
    (h : roadFinish cfg netType road_types ts edges hasLengthCol b filtered = .ok pts) :
    pts = (roadWalk b cfg.spacing ts netType hasLengthCol
      (roadTargetN road_types hasLengthCol edges cfg.spacing) filtered ([], 0)).1 := by
  unfold roadFinish at h
  dsimp only at h
  split_ifs at h
  simp only [Except.ok.injEq] at h
  exact h.symm

/-- Inversion of a successful road-network `generate`: the boundary
validated and the points are the output of the edge walk on some
filtered edge list, with the budget computed by `roadTargetN`. -/
theorem roadGenerate_ok {cfg : SamplingConfig} {netType : String}
    {road_types : Option (List String)} {ts : String} {g : Geometry}
    {edges : List Edge} {hasLengthCol : Bool} {pts : List RoadPoint}
    (h : roadGenerate cfg netType road_types ts g edges hasLengthCol = .ok pts) :
    ∃ B filtered, validate_boundary g = .ok B ∧
      pts = (roadWalk B cfg.spacing ts netType hasLengthCol
        (roadTargetN road_types hasLengthCol edges cfg.spacing) filtered ([], 0)).1 := by
  unfold roadGenerate at h
  cases hv : validate_boundary g with
  | error e => rw [hv] at h; cases h
  | ok B =>
    rw [hv] at h
    dsimp only at h
    by_cases he : edges.isEmpty
    · rw [if_pos he] at h; cases h
    · rw [if_neg he] at h
      cases road_types with
      | none => exact ⟨B, edges, rfl, roadFinish_ok h⟩
      | some rts =>
        dsimp only at h
        by_cases hk : (edges.filter (edgeMatches rts)).isEmpty
        · rw [if_pos hk] at h; cases h
        · rw [if_neg hk] at h
          exact ⟨B, edges.filter (edgeMatches rts), rfl, roadFinish_ok h⟩

/-- C1: for every shapely-sound boundary polygon, both strategies only
ever return points strictly contained in the boundary; a point lying
exactly on the boundary edge never appears in a successful result of
either `GridSampling.generate` or `RoadNetworkSampling.generate`. -/
theorem generate_containment_invariant (cosdeg : ℚ → ℚ) (st : GridState)
    (cfg : SamplingConfig) (netType : String)
    (road_types : Option (List String)) (ts : String) (B : Polygon)
    (edges : List Edge) (hasLengthCol : Bool) (hB : shapelySound B) :
    gridInsideOK cosdeg st ts B = true ∧
    roadInsideOK cfg netType road_types ts B edges hasLengthCol = true := by
  have hpoint : ∀ p : Pt, B.contains p = true → (B.contains p && !B.onEdge p) = true := by
    intro p hc
    cases he : B.onEdge p
    · simp [hc, he]
    · rw [hB p he] at hc
      cases hc
  constructor
  · unfold gridInsideOK
    cases hgen : sspGridGenerate cosdeg st ts (.poly B) with
    | error e => rfl
    | ok r =>
      obtain ⟨st2, pts⟩ := r
      rw [List.all_eq_true]
      intro p hp
      obtain ⟨B2, hv, hpts, -⟩ := sspGridGenerate_ok hgen
      obtain rfl := validate_boundary_poly_ok hv
      exact hpoint p.geometry (mem_gridPointsCore_contains (hpts ▸ hp))
  · unfold roadInsideOK
    cases hgen : roadGenerate cfg netType road_types ts (.poly B) edges hasLengthCol with
    | error e => rfl
    | ok pts =>
      rw [List.all_eq_true]
      intro p hp
      obtain ⟨B2, filtered, hv, hpts⟩ := roadGenerate_ok hgen
      obtain rfl := validate_boundary_poly_ok hv
      refine hpoint p.geometry ?_
      refine roadWalk_contains B2 cfg.spacing ts netType hasLengthCol _ filtered ([], 0)
        ?_ p (hpts ▸ hp)
      intro q hq
      cases hq

/-- Witness for C1 on a concrete rectangle, a concrete edge list and a
concrete configuration. -/
theorem generate_containment_invariant_witness :
    gridInsideOK (fun _ => 1) stProj "t" (rect 0 0 1000 1000) = true ∧
    roadInsideOK cfgProj "drive" none "t" (rect 0 0 1000 1000)
      [shortEdge] true = true :=
  generate_containment_invariant (fun _ => 1) stProj cfgProj "drive" none "t"
    (rect 0 0 1000 1000) [shortEdge] true (rect_shapelySound 0 0 1000 1000)

/-- The inner candidate scan keeps `points_generated` equal to the
number of accumulated points and never lets it pass the budget. -/
theorem edgeScan_budget (B : Polygon) (spacing : ℚ) (ts netType : String)
    (target : ℤ) (eid : ℤ) (hw : String) (elen : ℚ) (n : ℕ)
    (interp : ℚ → Pt) (st : List RoadPoint × ℕ)
    (hst : st.1.length = st.2 ∧ (st.2 : ℤ) ≤ target) :
    (edgeScan B spacing ts netType target eid hw elen n interp st).1.length =
      (edgeScan B spacing ts netType target eid hw elen n interp st).2 ∧
    ((edgeScan B spacing ts netType target eid hw elen n interp st).2 : ℤ) ≤ target := by
  refine foldl_invariant (fun st => st.1.length = st.2 ∧ (st.2 : ℤ) ≤ target)
    (edgeScanStep B spacing ts netType target eid hw elen n interp) ?_ _ st hst
  intro b i hb
  unfold edgeScanStep
  split_ifs with h1 h2
  · exact hb
  · refine ⟨by simp [hb.1], ?_⟩
    push_cast
    omega
  · exact hb

/-- The edge walk keeps `points_generated` equal to the number of
accumulated points and never lets it pass the budget. -/
theorem roadWalk_budget (B : Polygon) (spacing : ℚ) (ts netType : String)
    (hasLengthCol : Bool) (target : ℤ) :
    ∀ (edges : List Edge) (st : List RoadPoint × ℕ),
      st.1.length = st.2 ∧ (st.2 : ℤ) ≤ target →
      (roadWalk B spacing ts netType hasLengthCol target edges st).1.length =
        (roadWalk B spacing ts netType hasLengthCol target edges st).2 ∧
      ((roadWalk B spacing ts netType hasLengthCol target edges st).2 : ℤ) ≤ target := by
  intro edges
  induction edges with
  | nil => intro st hst; exact hst
  | cons e rest ih =>
    intro st hst
    unfold roadWalk
    split_ifs with h1
    · exact hst
    · exact ih _ (edgeScan_budget B spacing ts netType target _ _ _ _ _ st hst)

/-- C2 (amended): a successful `RoadNetworkSampling.generate` never
returns more than `n_points_target = max(1, int(total_length / spacing))`
points, where `total_length` sums the effective lengths of the
road-type-filtered undirected edges — the budget is network-wide, not
per edge. -/
theorem road_budget_within_target (cfg : SamplingConfig) (netType : String)
    (road_types : Option (List String)) (ts : String) (g : Geometry)
    (edges : List Edge) (hasLengthCol : Bool) :
    roadBudgetOK cfg netType road_types ts g edges hasLengthCol = true := by
  unfold roadBudgetOK
  cases hgen : roadGenerate cfg netType road_types ts g edges hasLengthCol with
  | error e => rfl
  | ok pts =>
    obtain ⟨B, filtered, -, hpts⟩ := roadGenerate_ok hgen
    have h0 : (0 : ℤ) ≤ roadTargetN road_types hasLengthCol edges cfg.spacing :=
      le_trans (by norm_num) (le_max_left 1 _)
    have hw := roadWalk_budget B cfg.spacing ts netType hasLengthCol
      (roadTargetN road_types hasLengthCol edges cfg.spacing) filtered ([], 0)
      ⟨rfl, by exact_mod_cast h0⟩
    rw [decide_eq_true_eq, hpts, hw.1]
    exact hw.2

/-- C8 (amended): the edge walk of `RoadNetworkSampling.generate`
equals the specification-text walk in which an edge receives the extra
candidate point exactly when the running total is still zero as the
edge is reached (in particular the very first edge always does, and a
later edge also does whenever no earlier candidate was kept);
candidates are interpolated at `i/(n-1)` (midpoint for `n = 1`) and
kept only when strictly inside the boundary with the running total
below the budget. -/
theorem road_walk_bonus_amended (B : Polygon) (spacing : ℚ)
    (ts netType : String) (hasLengthCol : Bool) (target : ℤ) :
    ∀ (edges : List Edge) (idx : ℕ) (st : List RoadPoint × ℕ),
      roadWalk B spacing ts netType hasLengthCol target edges st =
      specWalk B spacing ts netType hasLengthCol target
        (fun _ cnt => cnt == 0) edges idx st := by
  intro edges
  induction edges with
  | nil => intro idx st; rfl
  | cons e rest ih =>
    intro idx st
    unfold roadWalk specWalk
    split_ifs with h1
    · rfl
    · exact ih (idx + 1) _

/-- C6: `generate` fails before any point generation on every boundary
argument that is not a valid, non-empty, positive-area polygon — wrong
geometry type, invalid (e.g. bowtie), empty, and zero-area are four
distinct failure reasons, checked in that order — and a boundary passing
all four checks never triggers any of them (the call returns a result).
In the `Except` model an error return means the candidate-lattice code
was never reached. -/
theorem boundary_validation_errors (cosdeg : ℚ → ℚ) (st : GridState) (ts : String) :
    (∀ t, sspGridGenerate cosdeg st ts (.nonPolygon t) =
       .error (.typeErr ("boundary must be shapely Polygon, got " ++ t))) ∧
    (∀ B : Polygon, B.is_valid = false →
       sspGridGenerate cosdeg st ts (.poly B) = .error .boundaryNotValid) ∧
    (∀ B : Polygon, B.is_valid = true → B.is_empty = true →
       sspGridGenerate cosdeg st ts (.poly B) = .error .boundaryEmpty) ∧
    (∀ B : Polygon, B.is_valid = true → B.is_empty = false → B.area = 0 →
       sspGridGenerate cosdeg st ts (.poly B) = .error .boundaryZeroArea) ∧
    (∀ B : Polygon, B.is_valid = true → B.is_empty = false → B.area ≠ 0 →
       isOkE (sspGridGenerate cosdeg st ts (.poly B)) = true) ∧
    (∀ m, Err.typeErr m ≠ .boundaryNotValid ∧ Err.typeErr m ≠ .boundaryEmpty ∧
       Err.typeErr m ≠ .boundaryZeroArea) ∧
    (Err.boundaryNotValid ≠ .boundaryEmpty ∧
     Err.boundaryNotValid ≠ .boundaryZeroArea ∧
     Err.boundaryEmpty ≠ .boundaryZeroArea) := by
  refine ⟨fun t => rfl, ?_, ?_, ?_, ?_, fun m => by simp, by simp⟩
  · intro B h1
    simp [sspGridGenerate, validate_boundary, h1]
  · intro B h1 h2
    simp [sspGridGenerate, validate_boundary, h1, h2]
  · intro B h1 h2 h3
    simp [sspGridGenerate, validate_boundary, h1, h2, h3]
  · intro B h1 h2 h3
    simp [sspGridGenerate, validate_boundary, isOkE, h1, h2, h3]

/-- Witness for C6: each failure kind at a concrete boundary (a
non-polygon argument, a bowtie, the empty polygon, a degenerate
zero-area polygon) and a concrete success. -/
theorem boundary_validation_errors_witness :
    sspGridGenerate (fun _ => 1) stProj "t" (.nonPolygon "LineString") =
      .error (.typeErr "boundary must be shapely Polygon, got LineString") ∧
    sspGridGenerate (fun _ => 1) stProj "t" (.poly bowtie) =
      .error .boundaryNotValid ∧
    sspGridGenerate (fun _ => 1) stProj "t" (.poly emptyPolygon) =
      .error .boundaryEmpty ∧
    sspGridGenerate (fun _ => 1) stProj "t" (.poly zeroAreaPolygon) =
      .error .boundaryZeroArea ∧
    isOkE (sspGridGenerate (fun _ => 1) stProj "t" (.poly (rect 0 0 10 10))) = true :=
  ⟨(boundary_validation_errors (fun _ => 1) stProj "t").1 "LineString",
   (boundary_validation_errors (fun _ => 1) stProj "t").2.1 bowtie rfl,
   (boundary_validation_errors (fun _ => 1) stProj "t").2.2.1 emptyPolygon rfl rfl,
   (boundary_validation_errors (fun _ => 1) stProj "t").2.2.2.1 zeroAreaPolygon rfl rfl rfl,
   (boundary_validation_errors (fun _ => 1) stProj "t").2.2.2.2.1 (rect 0 0 10 10)
     rfl rfl (by norm_num [rect])⟩

/-- C7: after a `generate` call that produced zero points, the coverage
metrics call does not raise: it returns `density_pts_per_km2 = 0`
exactly, zero points, and an `area_km2` derived from the recorded
boundary (the empty-branch area) rather than from an empty bounding
box. -/
theorem empty_result_metrics (cosdeg : ℚ → ℚ) (st : GridState) (ts : String)
    (g : Geometry) (st2 : GridState) (pts : List GridPoint)
    (hok : sspGridGenerate cosdeg st ts g = .ok (st2, pts))
    (hempty : pts = []) :
    calculate_coverage_metrics cosdeg st2 =
      .ok { n_points := 0
          , area_km2 := pyRound 4 (emptyBranchAreaKm2 cosdeg st2.config)
          , density_pts_per_km2 := 0
          , bounds := (⟨0, 0⟩, ⟨0, 0⟩)
          , crs := st2.config.crs } := by
  subst hempty
  obtain ⟨B, -, -, hst2⟩ := sspGridGenerate_ok hok
  subst hst2
  rfl

/-- A CRS whose upper-cased identifier is not the WGS84 code leaves the
spacing unchanged. -/
theorem convert_spacing_projected (cosdeg : ℚ → ℚ) (s : ℚ) (crs : String)
    (bd : Option Polygon) (h : pyUpper crs ≠ "EPSG:4326") :
    convert_spacing_for_crs cosdeg s crs bd = s := by
  unfold convert_spacing_for_crs
  by_cases h1 : s = 0
  · rw [if_pos h1, h1]
  · rw [if_neg h1, if_neg h]

/-- C10 (amended): the duplicated grid implementations agree — same
point sets including geometries, grid indices, sample ids and even
timestamps — whenever the configured CRS is not the WGS84 code; they
disagree on WGS84 configurations, where only the `ssp` version converts
the spacing from meters to degrees. -/
theorem grid_duplicate_equiv (cosdeg : ℚ → ℚ) (st : GridState) (ts : String)
    (g : Geometry) (h : pyUpper st.config.crs ≠ "EPSG:4326") :
    (sspGridGenerate cosdeg st ts g).toOption.map Prod.snd =
    (sviproGridGenerate st ts g).toOption.map Prod.snd := by
  cases g with
  | nonPolygon t => rfl
  | poly B =>
    unfold sspGridGenerate sviproGridGenerate validate_boundary
    dsimp only
    split_ifs
    all_goals try rfl
    simp [Except.toOption, convert_spacing_projected cosdeg st.config.spacing
      st.config.crs (some B) h]

/-- Witness for C10's amended equivalence at the concrete projected
configuration. -/
theorem grid_duplicate_equiv_witness :
    (sspGridGenerate (fun _ => 1) stProj "t"
      (.poly (rect 0 0 1000 1000))).toOption.map Prod.snd =
    (sviproGridGenerate stProj "t"
      (.poly (rect 0 0 1000 1000))).toOption.map Prod.snd :=
  grid_duplicate_equiv (fun _ => 1) stProj "t" (.poly (rect 0 0 1000 1000))
    (by decide)

/-- The updated best of one binary-search iteration is never `none`. -/
theorem OptInv.step_some (target_n : ℤ)
    (best : Option (List GridPoint × ℕ)) (pts : List GridPoint) :
    updateBest target_n pts best ≠ none := by
  cases best with
  | none => simp [updateBest]
  | some pr =>
    simp only [updateBest]
    split_ifs <;> simp

/-- One binary-search iteration preserves the loop invariant: the
probed point set either strictly improves the best pair or the old best
stays minimal against the new trace entry; the config spacing becomes
the probed midpoint. -/
theorem OptInv.step (target_n : ℤ) (cfg : SamplingConfig) (b : Polygon)
    (best : Option (List GridPoint × ℕ)) (trace : List OptStep)
    (hinv : OptInv target_n cfg best trace) (mid : ℚ) (pts : List GridPoint) :
    OptInv target_n { cfg with spacing := mid, boundary := some b }
      (updateBest target_n pts best)
      (trace ++ [⟨mid, pts.length⟩]) := by
  obtain ⟨h1, h2, h3⟩ := hinv
  refine ⟨?_, ?_, ?_⟩
  · intro bp bd hb
    cases best with
    | none =>
      simp only [updateBest, Option.some.injEq, Prod.mk.injEq] at hb
      obtain ⟨rfl, rfl⟩ := hb
      rw [h2 rfl]
      refine ⟨rfl, ?_, ⟨mid, pts.length⟩, by simp, rfl⟩
      intro s hs
      rw [List.nil_append, List.mem_singleton] at hs
      subst hs
      exact le_refl _
    | some pr =>
      obtain ⟨bp0, bd0⟩ := pr
      obtain ⟨he, hmin, hwit⟩ := h1 bp0 bd0 rfl
      simp only [updateBest] at hb
      by_cases hc : ((pts.length : ℤ) - target_n).natAbs < bd0
      · rw [if_pos hc] at hb
        simp only [Option.some.injEq, Prod.mk.injEq] at hb
        obtain ⟨rfl, rfl⟩ := hb
        refine ⟨rfl, ?_, ⟨mid, pts.length⟩, by simp, rfl⟩
        intro s hs
        rcases List.mem_append.1 hs with hs | hs
        · exact le_of_lt (lt_of_lt_of_le hc (hmin s hs))
        · rcases List.mem_singleton.1 hs with rfl
          exact le_refl _
      · rw [if_neg hc] at hb
        simp only [Option.some.injEq, Prod.mk.injEq] at hb
        obtain ⟨rfl, rfl⟩ := hb
        refine ⟨he, ?_, ?_⟩
        · intro s hs
          rcases List.mem_append.1 hs with hs | hs
          · exact hmin s hs
          · rcases List.mem_singleton.1 hs with rfl
            rw [he]
            exact le_of_not_lt (fun hlt => hc (he ▸ hlt))
        · obtain ⟨s, hs, hsc⟩ := hwit
          exact ⟨s, List.mem_append_left _ hs, hsc⟩
  · intro hnone
    exact absurd hnone (OptInv.step_some target_n best pts)
  · intro _
    rw [List.getLastD_concat]


/-- The binary-search loop preserves the invariant, performs at most
`fuel` iterations, and (with fuel) always produces a best pair. -/
theorem optLoop_invariant (cosdeg : ℚ → ℚ) (ts : String) (b : Polygon)
    (target_n : ℤ) :
    ∀ (fuel : ℕ) (low high : ℚ) (cfg : SamplingConfig)
      (best : Option (List GridPoint × ℕ)) (trace : List OptStep),
      OptInv target_n cfg best trace →
      OptInv target_n
        (optLoop cosdeg ts b target_n fuel low high cfg best trace).1
        (optLoop cosdeg ts b target_n fuel low high cfg best trace).2.1
        (optLoop cosdeg ts b target_n fuel low high cfg best trace).2.2 ∧
      (optLoop cosdeg ts b target_n fuel low high cfg best trace).2.2.length ≤
        trace.length + fuel ∧
      ((1 ≤ fuel ∨ best ≠ none) →
        (optLoop cosdeg ts b target_n fuel low high cfg best trace).2.1 ≠ none) := by
  intro fuel
  induction fuel with
  | zero =>
    intro low high cfg best trace hinv
    refine ⟨hinv, by simp [optLoop], ?_⟩
    rintro (h | h)
    · omega
    · simpa [optLoop] using h
  | succ n ih =>
    intro low high cfg best trace hinv
    simp only [optLoop]
    have hstep := OptInv.step target_n cfg b best trace hinv ((low + high) / 2)
      (gridPointsCore ts ((low + high) / 2) b
        (convert_spacing_for_crs cosdeg ((low + high) / 2) cfg.crs (some b)))
    have hsome := OptInv.step_some target_n best
      (gridPointsCore ts ((low + high) / 2) b
        (convert_spacing_for_crs cosdeg ((low + high) / 2) cfg.crs (some b)))
    split_ifs with h0 hlt
    · exact ⟨hstep, by simp, fun _ => hsome⟩
    · obtain ⟨ha, hb, hc⟩ := ih low ((low + high) / 2)
        { cfg with spacing := (low + high) / 2, boundary := some b } _ _ hstep
      refine ⟨ha, le_trans hb (by simp; omega), fun _ => hc (Or.inr hsome)⟩
    · obtain ⟨ha, hb, hc⟩ := ih ((low + high) / 2) high
        { cfg with spacing := (low + high) / 2, boundary := some b } _ _ hstep
      refine ⟨ha, le_trans hb (by simp; omega), fun _ => hc (Or.inr hsome)⟩

/-- C9: `optimize_spacing_for_target_n` fails fast — raising before any
generation — when `target_n ≤ 0`, when `min_spacing ≥ max_spacing`, or
when `target_n` exceeds the achievable maximum at the converted minimum
spacing; otherwise it runs the binary search (non-empty trace of at
most 20 iterations), overwrites `config.spacing` with the last spacing
tried, and returns a point set generated by one of the iterations whose
count is closest to `target_n` among all iterations. -/
theorem optimize_spacing_behavior (cosdeg : ℚ → ℚ) (st : GridState)
    (ts : String) (g : Geometry) (target_n : ℤ)
    (min_spacing max_spacing : ℚ) :
    (target_n ≤ 0 →
       optimize_spacing_for_target_n cosdeg st ts g target_n min_spacing max_spacing =
         .error (.valueErr "target_n must be positive")) ∧
    (0 < target_n → min_spacing ≥ max_spacing →
       optimize_spacing_for_target_n cosdeg st ts g target_n min_spacing max_spacing =
         .error (.valueErr "min_spacing must be less than max_spacing")) ∧
    (0 < target_n → min_spacing < max_spacing →
       ∀ B, validate_boundary g = .ok B →
         target_n > optMaxPossible cosdeg st.config.crs B min_spacing →
         optimize_spacing_for_target_n cosdeg st ts g target_n min_spacing max_spacing =
           .error (.valueErr "Target point count is too high for the boundary area")) ∧
    (0 < target_n → min_spacing < max_spacing →
       ∀ B, validate_boundary g = .ok B →
         target_n ≤ optMaxPossible cosdeg st.config.crs B min_spacing →
         optSearchOK cosdeg st ts g target_n min_spacing max_spacing = true) := by
  refine ⟨?_, ?_, ?_, ?_⟩
  · intro h
    unfold optimize_spacing_for_target_n
    rw [if_pos h]
  · intro h1 h2
    unfold optimize_spacing_for_target_n
    rw [if_neg (by omega), if_pos h2]
  · intro h1 h2 B hB h3
    unfold optimize_spacing_for_target_n
    rw [if_neg (by omega), if_neg (not_le.mpr h2), hB]
    dsimp only
    rw [if_pos h3]
  · intro h1 h2 B hB h3
    have hinv0 : OptInv target_n st.config none [] :=
      ⟨fun bp bd h => Option.noConfusion h, fun _ => rfl, fun h => absurd rfl h⟩
    obtain ⟨hinvF, hlen, hsome⟩ := optLoop_invariant cosdeg ts B target_n 20
      min_spacing max_spacing st.config none [] hinv0
    unfold optSearchOK optimize_spacing_for_target_n
    rw [if_neg (by omega), if_neg (not_le.mpr h2), hB]
    dsimp only
    rw [if_neg (not_lt.mpr h3)]
    cases hbest : (optLoop cosdeg ts B target_n 20 min_spacing max_spacing st.config none []).2.1 with
    | none => exact absurd hbest (hsome (Or.inl (by norm_num)))
    | some pr =>
      obtain ⟨bp, bd⟩ := pr
      obtain ⟨heq, hmin, s0, hs0, hs0c⟩ := hinvF.1 bp bd hbest
      have htne : (optLoop cosdeg ts B target_n 20 min_spacing max_spacing
          st.config none []).2.2 ≠ [] := List.ne_nil_of_mem hs0
      simp only [Option.map_some', Bool.and_eq_true, List.all_eq_true,
        List.any_eq_true, decide_eq_true_eq, Bool.not_eq_true',
        List.isEmpty_eq_false]
      refine ⟨⟨⟨⟨htne, by simpa using hlen⟩, ?_⟩, ⟨s0, hs0, hs0c⟩⟩, ?_⟩
      · intro s hs
        rw [← heq]
        exact hmin s hs
      · exact hinvF.2.2 htne

section ConcreteEvaluation

attribute [local semireducible] Rat.mul Rat.inv Rat.add Rat.sub Rat.ofScientific

/-- Counterexample for C5 as stated: in scenario A the returned count
is 81, not between 100 and 121. -/
theorem grid_scenarioA_cex :
    scenarioACount = 81 ∧ ¬(100 ≤ scenarioACount ∧ scenarioACount ≤ 121) := by
  constructor
  · decide
  · decide

/-- C5 (amended): scenario A evaluates an exactly 11 × 11 candidate
lattice before boundary filtering, and strict containment drops every
edge-aligned candidate, returning the 9 × 9 = 81 interior points. -/
theorem grid_scenarioA_amended :
    (npArange 0 (1000 + 100) 100).length = 11 ∧
    (npArange 0 (1000 + 100) 100).length * (npArange 0 (1000 + 100) 100).length = 121 ∧
    scenarioACount = 81 := by
  refine ⟨by decide, by decide, by decide⟩

/-- Counterexample for C2 as stated: one 50 m edge with spacing 100
gives `floor(total_length / spacing) = 0`, yet the successful call
returns one point, so the plain-floor budget is exceeded (the code uses
`max(1, floor(total / spacing))`). -/
theorem road_budget_floor_cex :
    isOkE (roadGenerate cfgProj "drive" none "t" (.poly (rect 0 0 1000 1000))
      [shortEdge] true) = true ∧
    (match roadGenerate cfgProj "drive" none "t" (.poly (rect 0 0 1000 1000))
        [shortEdge] true with
      | .ok pts => pts.length
      | .error _ => 0) = 1 ∧
    ⌊totalFilteredLength none true [shortEdge] / cfgProj.spacing⌋ = 0 ∧
    ¬((match roadGenerate cfgProj "drive" none "t" (.poly (rect 0 0 1000 1000))
        [shortEdge] true with
      | .ok pts => (pts.length : ℤ)
      | .error _ => 0) ≤
        ⌊totalFilteredLength none true [shortEdge] / cfgProj.spacing⌋) := by
  refine ⟨by decide, by decide, by decide, by decide⟩

/-- Counterexample for C8 as stated: with a first edge whose candidates
all fall outside the boundary, the second edge still receives the extra
candidate point (the code keys the bonus on `points_generated == 0`,
not on edge position), so the walk differs from the
first-edge-only-bonus procedure the claim describes: 4 points kept
versus 3. -/
theorem road_walk_first_edge_cex :
    (roadWalk (rect 0 0 1000 1000) 100 "t" "all" true
        (roadTargetN none true [outsideEdge, insideEdge] 100)
        [outsideEdge, insideEdge] ([], 0)).1.length = 4 ∧
    (specWalk (rect 0 0 1000 1000) 100 "t" "all" true
        (roadTargetN none true [outsideEdge, insideEdge] 100)
        (fun idx _ => idx == 0) [outsideEdge, insideEdge] 0 ([], 0)).1.length = 3 ∧
    roadWalk (rect 0 0 1000 1000) 100 "t" "all" true
        (roadTargetN none true [outsideEdge, insideEdge] 100)
        [outsideEdge, insideEdge] ([], 0) ≠
      specWalk (rect 0 0 1000 1000) 100 "t" "all" true
        (roadTargetN none true [outsideEdge, insideEdge] 100)
        (fun idx _ => idx == 0) [outsideEdge, insideEdge] 0 ([], 0) := by
  have h1 : (roadWalk (rect 0 0 1000 1000) 100 "t" "all" true
      (roadTargetN none true [outsideEdge, insideEdge] 100)
      [outsideEdge, insideEdge] ([], 0)).1.length = 4 := by decide
  have h2 : (specWalk (rect 0 0 1000 1000) 100 "t" "all" true
      (roadTargetN none true [outsideEdge, insideEdge] 100)
      (fun idx _ => idx == 0) [outsideEdge, insideEdge] 0 ([], 0)).1.length = 3 := by decide
  refine ⟨h1, h2, fun h => ?_⟩
  rw [h] at h1
  omega

/-- Counterexample for C10 as stated: on a WGS84 configuration the two
grid implementations differ — on a small equatorial rectangle the `ssp`
version (meters converted to degrees) returns 2 points while the
`svipro` version (spacing used raw) returns 0.  The cosine stand-in is
exact here: the boundary's center latitude is 0 and `cos 0 = 1`. -/
theorem grid_duplicate_cex :
    ((sspGridGenerate (fun _ => 1) stWgs "t"
        (.poly (rect 0 (-1/1000) (1/1000) (1/1000)))).toOption.map
      (fun r => r.2.length) = some 2) ∧
    ((sviproGridGenerate stWgs "t"
        (.poly (rect 0 (-1/1000) (1/1000) (1/1000)))).toOption.map
      (fun r => r.2.length) = some 0) ∧
    (sspGridGenerate (fun _ => 1) stWgs "t"
        (.poly (rect 0 (-1/1000) (1/1000) (1/1000)))).toOption.map Prod.snd ≠
      (sviproGridGenerate stWgs "t"
        (.poly (rect 0 (-1/1000) (1/1000) (1/1000)))).toOption.map Prod.snd := by
  refine ⟨by decide, by decide, by decide⟩

/-- Witness for C7: the concrete zero-point generate on `tinyRect`
followed by the metrics call. -/
theorem empty_result_metrics_witness :
    calculate_coverage_metrics (fun _ => 1) stTinyAfter =
      .ok { n_points := 0
          , area_km2 := pyRound 4 (emptyBranchAreaKm2 (fun _ => 1) stTinyAfter.config)
          , density_pts_per_km2 := 0
          , bounds := (⟨0, 0⟩, ⟨0, 0⟩)
          , crs := stTinyAfter.config.crs } :=
  empty_result_metrics (fun _ => 1) stProj "t" (.poly tinyRect) stTinyAfter []
    rfl rfl

/-- Witness for C9 at a concrete boundary and target. -/
theorem optimize_spacing_behavior_witness :
    optSearchOK (fun _ => 1) stProj "t" (.poly (rect 0 0 150 150)) 1 100 1000 = true :=
  (optimize_spacing_behavior (fun _ => 1) stProj "t" (.poly (rect 0 0 150 150))
      1 100 1000).2.2.2 (by decide) (by decide) (rect 0 0 150 150) rfl (by decide)

end ConcreteEvaluation

end GProc
